import Mathlib

/-!
# NETMONITOR: the device discovery loop of `src/device_discovery.cpp`

A shallow embedding of the program's control loop and of its message handler.

* The file as written does not compile (a semicolon is missing at line 134, the
  brace at line 136 is misplaced, `DEVICE_CHECK_INTERVAL` is not declared). The
  embedding reads lines 125-235 as the one function they are laid out to be: the
  start-up calls, the `while (true)` loop, the clean-up and `return 0`.
* `std::string` is a Lean `String`; `operator<` on strings is the lexicographic
  comparison of the character sequences (`strLt`), character by character by
  character code, which for one-byte characters is the comparison of the bytes;
  `std::vector<std::string>` is a `List String` whose `size()` is the list length.
* The outside world is explicit input: what each `popen` pipe delivers (or that
  `popen` returned `NULL`), and the return code of the `mosquitto_publish` call
  on the device topic. Return codes the source ignores are not inputs.
* Every call into the mosquitto library and every line written to
  `std::cout` / `std::cerr` is recorded, in program order, as an `Event`.
* `std::this_thread::sleep_for` only spends time and is not recorded.
-/

namespace NetMonitor

/-! ## Constants (source lines 42-49) -/

def BROKER_ADDRESS : String := "localhost"

def BROKER_PORT : Int := 1883

def DEVICE_TOPIC : String := "NETWORK/device"

def ALERT_TOPIC : String := "NETWORK/alert"

def NEW_DEVICE_TOPIC : String := "NETWORK/new_device"

/-- The success code of the mosquitto client library (`mosquitto.h`, enum `mosq_err_t`). -/
def MOSQ_ERR_SUCCESS : Int := 0

/-- The modulus of `size_t` arithmetic (64-bit). -/
def SIZE_MODULUS : Nat := 2 ^ 64

/-! ## Observable events and program state -/

/-- One observable action of the program. -/
inductive Event where
  | cout (line : String)
  | cerr (line : String)
  | mosquitto_lib_init
  | mosquitto_new (id : String)
  | mosquitto_connect (host : String) (port : Int) (keepalive : Int)
  | mosquitto_message_callback_set
  | mosquitto_subscribe (topic : String)
  | mosquitto_publish (topic : String) (payload : String)
  | mosquitto_disconnect
  | mosquitto_destroy
  | mosquitto_lib_cleanup
  deriving DecidableEq, Repr

/-- The global `deviceList` (source line 55); it starts out empty. -/
structure State where
  deviceList : List String
  deriving DecidableEq, Repr

def State.initial : State := ⟨[]⟩

/-- The `(topic, payload)` pairs of the `mosquitto_publish` calls of a trace, in order. -/
def publishes : List Event → List (String × String)
  | [] => []
  | Event.mosquitto_publish t p :: es => (t, p) :: publishes es
  | _ :: es => publishes es

/-! ## Strings: comparison, C strings, newline removal -/

/-- Lexicographic `operator<` of `std::string`. -/
def strLt (a b : String) : Prop := a.data < b.data

/-- The order `std::sort` arranges by: `a` may precede `b` when `b < a` is false. -/
def strLe (a b : String) : Prop := a.data ≤ b.data

instance strLe.decidable : DecidableRel strLe :=
  fun a b => inferInstanceAs (Decidable (a.data ≤ b.data))

instance strLt.decidable : DecidableRel strLt :=
  fun a b => inferInstanceAs (Decidable (a.data < b.data))

/-- The characters of a `char` buffer read as a C string: those before the first NUL. -/
def cString (buffer : List Char) : List Char :=
  buffer.takeWhile (fun c => c ≠ Char.ofNat 0)

/-- The idiom `s.erase(std::remove(s.begin(), s.end(), '\n'), s.end())`. -/
def removeNewlines (s : List Char) : List Char :=
  s.filter (fun c => c ≠ '\n')

/-! ## Reading a pipe with `fgets` -/

/-- Reads at most `k` characters, stopping right after a newline; returns the
characters stored in the buffer and the unread rest of the stream. -/
def fgetsChars : Nat → List Char → List Char × List Char
  | 0, s => ([], s)
  | _ + 1, [] => ([], [])
  | k + 1, c :: s =>
    if c = '\n' then ([c], s)
    else (c :: (fgetsChars k s).1, (fgetsChars k s).2)

/-- Models `fgets(buffer, n, stream)`: `none` is the `NULL` returned at end of file. -/
def fgets (n : Nat) (stream : List Char) : Option (List Char × List Char) :=
  match stream with
  | [] => none
  | _ :: _ => some (fgetsChars (n - 1) stream)

/-- The loop of source lines 175-180: one `push_back` per successful `fgets`. -/
def readDeviceLoop : Nat → List Char → List String → List String
  | 0, _, newDeviceList => newDeviceList
  | fuel + 1, stream, newDeviceList =>
    match fgets 256 stream with
    | none => newDeviceList
    | some (buffer, rest) =>
      let macAddress := String.mk (removeNewlines (cString buffer))
      readDeviceLoop fuel rest (newDeviceList ++ [macAddress])

/-- The vector built from the output of the address-table command (lines 173-180).
Every iteration consumes at least one character, so the length of the stream is
enough fuel (`readDeviceLoop_fuel`). -/
def buildDeviceList (stream : List Char) : List String :=
  readDeviceLoop stream.length stream []

/-- The loop `while (fgets(...)) result += buffer;` of lines 84-89 and 110-115. -/
def readAllLoop : Nat → List Char → List Char → List Char
  | 0, _, result => result
  | fuel + 1, stream, result =>
    match fgets 256 stream with
    | none => result
    | some (buffer, rest) => readAllLoop fuel rest (result ++ cString buffer)

/-- Source lines 73-96; the argument is the result of `popen` on the `ifconfig` pipeline. -/
def get_mac_address (pipe : Option (List Char)) : String :=
  match pipe with
  | none => ""
  | some out => String.mk (removeNewlines (readAllLoop out.length out []))

/-- Source lines 99-122; the argument is the result of `popen` on the `hostname` pipeline. -/
def get_ip_address (pipe : Option (List Char)) : String :=
  match pipe with
  | none => ""
  | some out => String.mk (removeNewlines (readAllLoop out.length out []))

/-! ## Sorting -/

/-- The result of `std::sort(v.begin(), v.end())` on strings: the ascending rearrangement
of `v`. Strings that compare equivalent are equal, so the result does not depend
on the sorting algorithm (`sortDevices_unique`). -/
def sortDevices (v : List String) : List String :=
  v.insertionSort strLe

/-! ## The JSON text (source lines 193-206) -/

/-- The `for` loop of lines 198-205 appending to the stream `json`; the bound
`deviceList.size() - 1` is computed in `size_t`. -/
def devicesLoop (deviceList : List String) : Nat → Nat → String → String
  | 0, _, json => json
  | fuel + 1, i, json =>
    if h : i < deviceList.length then
      let json1 := json ++ "\"" ++ deviceList[i] ++ "\""
      let json2 :=
        if i < (deviceList.length + SIZE_MODULUS - 1) % SIZE_MODULUS then json1 ++ "," else json1
      devicesLoop deviceList fuel (i + 1) json2
    else json

/-- The text of `json.str()` after lines 193-206. -/
def buildJson (ip mac : String) (deviceList : List String) : String :=
  let json0 := "\x7b"
  let json1 := json0 ++ "\"ip_address\":\"" ++ ip ++ "\","
  let json2 := json1 ++ "\"mac_address\":\"" ++ mac ++ "\","
  let json3 := json2 ++ "\"devices\":["
  let json4 := devicesLoop deviceList deviceList.length 0 json3
  json4 ++ "]\x7d"

/-! ## The message handler (source lines 58-70) -/

/-- An inbound message: its topic and its payload of `payloadlen` bytes. -/
structure Message where
  topic : String
  payload : String
  deriving DecidableEq, Repr

def on_message (st : State) (msg : Message) : State × List Event :=
  let message := msg.payload
  let log := Event.cout ("Message received on topic: " ++ msg.topic ++ ". Message: " ++ message)
  if msg.topic = NEW_DEVICE_TOPIC then
    (st, [log, Event.mosquitto_publish ALERT_TOPIC "New device connected to the network"])
  else
    (st, [log])

/-! ## One iteration of the control loop (source lines 160-228) -/

/-- What the outside world supplies to one iteration. -/
structure TickEnv where
  /-- Result of `popen` on the `arp` pipeline: `none` is `NULL`. -/
  arp : Option (List Char)
  /-- Result of `popen` inside `get_ip_address`. -/
  hostname : Option (List Char)
  /-- Result of `popen` inside `get_mac_address`. -/
  ifconfig : Option (List Char)
  /-- Return code of `mosquitto_publish` on the device topic. -/
  publishRet : Int
  deriving DecidableEq, Repr

/-- The effect of one iteration: the new state, what was emitted, and whether
the iteration left the loop through `break`. -/
structure TickResult where
  state : State
  events : List Event
  broke : Bool
  deriving DecidableEq, Repr

def tick (st : State) (env : TickEnv) : TickResult :=
  match env.arp with
  | none =>
    ⟨st, [Event.cerr "Error: Unable to execute ARP command"], true⟩
  | some out =>
    let newDeviceList := sortDevices (buildDeviceList out)
    if newDeviceList ≠ st.deviceList then
      let deviceList := newDeviceList
      let json := buildJson (get_ip_address env.hostname) (get_mac_address env.ifconfig) deviceList
      let sent := Event.mosquitto_publish DEVICE_TOPIC json
      if env.publishRet ≠ MOSQ_ERR_SUCCESS then
        ⟨⟨deviceList⟩,
          [sent, Event.cerr ("Error: Unable to publish device details to topic " ++ DEVICE_TOPIC)],
          true⟩
      else if deviceList.length > newDeviceList.length then
        ⟨⟨deviceList⟩,
          [sent, Event.mosquitto_publish ALERT_TOPIC "Device disconnected from the network"],
          false⟩
      else if deviceList.length < newDeviceList.length then
        ⟨⟨deviceList⟩,
          [sent, Event.mosquitto_publish ALERT_TOPIC "New device connected to the network"],
          false⟩
      else
        ⟨⟨deviceList⟩, [sent], false⟩
    else
      ⟨st, [], false⟩

/-! ## The loop and the program -/

/-- The `while (true)` loop run on the environments of its first iterations:
it stops at the first `break`, or with `broke = false` when the given
environments are used up and the loop is still running. -/
def mainLoop : State → List TickEnv → TickResult
  | st, [] => ⟨st, [], false⟩
  | st, env :: rest =>
    let r := tick st env
    if r.broke then r
    else
      let r2 := mainLoop r.state rest
      ⟨r2.state, r.events ++ r2.events, r2.broke⟩

/-- Results of the three start-up calls whose outcome the source tests. -/
structure Startup where
  /-- Does `mosquitto_new` return a client. -/
  newOk : Bool
  connectRet : Int
  subscribeRet : Int
  deriving DecidableEq, Repr

/-- A run of the program: its trace, the final `deviceList`, and the exit status
(`none` while the loop is still running). -/
structure RunResult where
  state : State
  events : List Event
  exit : Option Int
  deriving DecidableEq, Repr

/-- Source lines 159-234: the loop from a given `deviceList`, then the clean-up and `return 0`. -/
def loopAndCleanup (st : State) (ticks : List TickEnv) : RunResult :=
  let r := mainLoop st ticks
  if r.broke then
    ⟨r.state,
      r.events ++ [Event.mosquitto_disconnect, Event.mosquitto_destroy, Event.mosquitto_lib_cleanup],
      some 0⟩
  else
    ⟨r.state, r.events, none⟩

/-- Source lines 125-235. -/
def main (s : Startup) (ticks : List TickEnv) : RunResult :=
  let e0 := [Event.mosquitto_lib_init, Event.mosquitto_new "device_publisher"]
  if s.newOk = false then
    ⟨State.initial, e0 ++ [Event.cerr "Error: Unable to create Mosquitto client instance"], some 1⟩
  else
    let e1 := e0 ++ [Event.mosquitto_connect BROKER_ADDRESS BROKER_PORT 60]
    if s.connectRet ≠ MOSQ_ERR_SUCCESS then
      ⟨State.initial,
        e1 ++ [Event.cerr "Error: Unable to connect to MQTT broker", Event.mosquitto_destroy],
        some 1⟩
    else
      let e2 := e1 ++ [Event.mosquitto_message_callback_set,
        Event.mosquitto_subscribe NEW_DEVICE_TOPIC]
      if s.subscribeRet ≠ MOSQ_ERR_SUCCESS then
        ⟨State.initial,
          e2 ++ [Event.cerr ("Error: Unable to subscribe to topic " ++ NEW_DEVICE_TOPIC),
            Event.mosquitto_destroy],
          some 1⟩
      else
        let r := loopAndCleanup State.initial ticks
        ⟨r.state, e2 ++ r.events, r.exit⟩

/-- The input `s` seen as the bytes a pipe delivers. -/
def pipe (s : String) : Option (List Char) := some s.data

/-- An iteration in which every pipe opens, the address-table command prints `listing`,
and the device publish returns `ret`. -/
def sampleEnv (listing : String) (ret : Int) : TickEnv :=
  ⟨pipe listing, pipe "10.0.0.5\n", pipe "00:11:22:33:44:55\n", ret⟩

/-- An iteration in which `popen` on the address-table command returns `NULL`. -/
def failedEnv : TickEnv :=
  ⟨none, pipe "10.0.0.5\n", pipe "00:11:22:33:44:55\n", MOSQ_ERR_SUCCESS⟩

/-! ## Helper lemmas: the string order and sorting -/

instance strLe.isTotal : IsTotal String strLe :=
  ⟨fun a b => le_total a.data b.data⟩

instance strLe.isTrans : IsTrans String strLe :=
  ⟨fun a b c hab hbc => le_trans (a := a.data) (b := b.data) (c := c.data) hab hbc⟩

instance strLe.isAntisymm : IsAntisymm String strLe :=
  ⟨fun _ _ hab hba => String.ext (le_antisymm hab hba)⟩

theorem strLe_iff_not_strLt (a b : String) : strLe a b ↔ ¬ strLt b a := by
  unfold strLe strLt
  exact not_lt.symm

theorem sortDevices_sorted (v : List String) : List.Sorted strLe (sortDevices v) :=
  List.sorted_insertionSort strLe v

theorem sortDevices_perm (v : List String) : (sortDevices v).Perm v :=
  List.perm_insertionSort strLe v

theorem sortDevices_length (v : List String) : (sortDevices v).length = v.length :=
  (sortDevices_perm v).length_eq

/-- Any ascending rearrangement of `v` is the one `sortDevices` computes. -/
theorem sortDevices_unique (v w : List String) (hp : w.Perm v) (hs : List.Sorted strLe w) :
    w = sortDevices v :=
  List.eq_of_perm_of_sorted (hp.trans (sortDevices_perm v).symm) hs (sortDevices_sorted v)

theorem sortDevices_congr (v w : List String) (hp : w.Perm v) :
    sortDevices w = sortDevices v :=
  sortDevices_unique v (sortDevices w) ((sortDevices_perm w).trans hp) (sortDevices_sorted w)

theorem sortDevices_of_sorted (v : List String) (hs : List.Sorted strLe v) :
    sortDevices v = v :=
  List.Sorted.insertionSort_eq hs

/-! ## Helper lemmas: the read loops terminate within their fuel -/

theorem fgetsChars_rest_length (k : Nat) (s : List Char) :
    (fgetsChars k s).2.length ≤ s.length := by
  induction s generalizing k with
  | nil => cases k <;> simp [fgetsChars]
  | cons c s ih =>
    cases k with
    | zero => simp [fgetsChars]
    | succ k =>
      unfold fgetsChars
      split
      · simp
      · exact Nat.le_succ_of_le (ih k)

theorem fgets_rest_length (stream buffer rest : List Char)
    (h : fgets 256 stream = some (buffer, rest)) : rest.length < stream.length := by
  cases stream with
  | nil => simp [fgets] at h
  | cons c s =>
    simp only [fgets, Option.some.injEq] at h
    have hr : rest = (fgetsChars 255 (c :: s)).2 := by rw [h]
    rw [hr]
    unfold fgetsChars
    split
    · simp
    · exact Nat.lt_succ_of_le (fgetsChars_rest_length 254 s)

/-- Any fuel that covers the length of the stream gives the same vector: the
loop of lines 175-180 has reached end of file before the fuel is used up. -/
theorem readDeviceLoop_fuel (fuel1 fuel2 : Nat) (stream : List Char) (acc : List String)
    (h1 : stream.length ≤ fuel1) (h2 : stream.length ≤ fuel2) :
    readDeviceLoop fuel1 stream acc = readDeviceLoop fuel2 stream acc := by
  induction fuel1 generalizing fuel2 stream acc with
  | zero =>
    have hnil : stream = [] := List.length_eq_zero.mp (Nat.le_zero.mp h1)
    subst hnil
    cases fuel2 <;> simp [readDeviceLoop, fgets]
  | succ n ih =>
    cases fuel2 with
    | zero =>
      have hnil : stream = [] := List.length_eq_zero.mp (Nat.le_zero.mp h2)
      subst hnil
      simp [readDeviceLoop, fgets]
    | succ m =>
      unfold readDeviceLoop
      cases hf : fgets 256 stream with
      | none => rfl
      | some br =>
        obtain ⟨buffer, rest⟩ := br
        have hlt := fgets_rest_length stream buffer rest hf
        exact ih m rest _ (by omega) (by omega)

/-- The loop of `get_ip_address` and `get_mac_address` likewise reads to end of file
within any fuel that covers the length of the stream. -/
theorem readAllLoop_fuel (fuel1 fuel2 : Nat) (stream : List Char) (acc : List Char)
    (h1 : stream.length ≤ fuel1) (h2 : stream.length ≤ fuel2) :
    readAllLoop fuel1 stream acc = readAllLoop fuel2 stream acc := by
  induction fuel1 generalizing fuel2 stream acc with
  | zero =>
    have hnil : stream = [] := List.length_eq_zero.mp (Nat.le_zero.mp h1)
    subst hnil
    cases fuel2 <;> simp [readAllLoop, fgets]
  | succ n ih =>
    cases fuel2 with
    | zero =>
      have hnil : stream = [] := List.length_eq_zero.mp (Nat.le_zero.mp h2)
      subst hnil
      simp [readAllLoop, fgets]
    | succ m =>
      unfold readAllLoop
      cases hf : fgets 256 stream with
      | none => rfl
      | some br =>
        obtain ⟨buffer, rest⟩ := br
        have hlt := fgets_rest_length stream buffer rest hf
        exact ih m rest _ (by omega) (by omega)

/-- The loop of lines 175-180 ends with `fgets` returning `NULL` on what is left. -/
theorem buildDeviceList_fuel (fuel : Nat) (stream : List Char) (h : stream.length ≤ fuel) :
    readDeviceLoop fuel stream [] = buildDeviceList stream :=
  readDeviceLoop_fuel fuel stream.length stream [] h (Nat.le_refl _)

/-! ## Helper lemmas: the text of the `devices` array -/

/-- One entry of the `devices` array: the identifier between double quotes. -/
def quoted (d : String) : String := "\"" ++ d ++ "\""

theorem intercalate_go_append (x acc sep : String) (l : List String) :
    String.intercalate.go (x ++ acc) sep l = x ++ String.intercalate.go acc sep l := by
  induction l generalizing acc with
  | nil => simp [String.intercalate.go]
  | cons a l ih =>
    simp only [String.intercalate.go]
    rw [← ih]
    simp [String.append_assoc]

theorem intercalate_cons_cons (sep a b : String) (l : List String) :
    sep.intercalate (a :: b :: l) = a ++ sep ++ sep.intercalate (b :: l) := by
  simp only [String.intercalate, String.intercalate.go]
  rw [String.append_assoc, String.append_assoc, intercalate_go_append, intercalate_go_append]

theorem size_minus_one (n : Nat) (h0 : 0 < n) (h : n < SIZE_MODULUS) :
    (n + SIZE_MODULUS - 1) % SIZE_MODULUS = n - 1 := by
  unfold SIZE_MODULUS at *
  omega

theorem devicesLoop_eq (deviceList : List String) (hsize : deviceList.length < SIZE_MODULUS)
    (fuel i : Nat) (json : String) (hi : i ≤ deviceList.length)
    (hfuel : fuel = deviceList.length - i) :
    devicesLoop deviceList fuel i json
      = json ++ ",".intercalate ((deviceList.drop i).map quoted) := by
  induction fuel generalizing i json with
  | zero =>
    have hlen : deviceList.length ≤ i := by omega
    simp [devicesLoop, List.drop_eq_nil_of_le hlen, String.intercalate]
  | succ n ih =>
    have hlt : i < deviceList.length := by omega
    unfold devicesLoop
    rw [dif_pos hlt]
    simp only
    rw [size_minus_one deviceList.length (by omega) hsize]
    rw [ih (i + 1) _ (by omega) (by omega)]
    rw [List.drop_eq_getElem_cons hlt]
    by_cases hlast : i < deviceList.length - 1
    · rw [if_pos hlast]
      have hlt2 : i + 1 < deviceList.length := by omega
      rw [List.drop_eq_getElem_cons hlt2]
      simp only [List.map_cons]
      rw [intercalate_cons_cons]
      simp [quoted, String.append_assoc]
    · rw [if_neg hlast]
      have hlen : deviceList.length ≤ i + 1 := by omega
      simp [List.drop_eq_nil_of_le hlen, String.intercalate, String.intercalate.go, quoted,
        String.append_assoc]

/-! ## Helper lemmas: one iteration -/

theorem tick_arp_none (st : State) (env : TickEnv) (h : env.arp = none) :
    tick st env = ⟨st, [Event.cerr "Error: Unable to execute ARP command"], true⟩ := by
  simp [tick, h]

theorem tick_unchanged (st : State) (env : TickEnv) (out : List Char) (h : env.arp = some out)
    (heq : sortDevices (buildDeviceList out) = st.deviceList) :
    tick st env = ⟨st, [], false⟩ := by
  simp [tick, h, heq]

/-- The trace of an iteration that detects a change: the device publish and, when it
fails, the diagnostic; no other call is made. -/
theorem tick_changed (st : State) (env : TickEnv) (out : List Char) (h : env.arp = some out)
    (hne : sortDevices (buildDeviceList out) ≠ st.deviceList) :
    tick st env =
      ⟨⟨sortDevices (buildDeviceList out)⟩,
        Event.mosquitto_publish DEVICE_TOPIC
            (buildJson (get_ip_address env.hostname) (get_mac_address env.ifconfig)
              (sortDevices (buildDeviceList out))) ::
          (if env.publishRet ≠ MOSQ_ERR_SUCCESS then
            [Event.cerr ("Error: Unable to publish device details to topic " ++ DEVICE_TOPIC)]
          else []),
        decide (env.publishRet ≠ MOSQ_ERR_SUCCESS)⟩ := by
  unfold tick
  simp only [h]
  rw [if_pos hne]
  by_cases hp : env.publishRet ≠ MOSQ_ERR_SUCCESS
  · simp [hp]
  · simp [hp]

theorem tick_state (st : State) (env : TickEnv) (out : List Char) (h : env.arp = some out) :
    (tick st env).state = ⟨sortDevices (buildDeviceList out)⟩ := by
  by_cases heq : sortDevices (buildDeviceList out) = st.deviceList
  · rw [tick_unchanged st env out h heq]
    cases st
    simp only at heq
    simp [heq]
  · rw [tick_changed st env out h heq]

theorem tick_sorted (st : State) (env : TickEnv) (hs : List.Sorted strLe st.deviceList) :
    List.Sorted strLe (tick st env).state.deviceList := by
  cases h : env.arp with
  | none => rw [tick_arp_none st env h]; exact hs
  | some out => rw [tick_state st env out h]; exact sortDevices_sorted _

theorem mainLoop_sorted (st : State) (envs : List TickEnv)
    (hs : List.Sorted strLe st.deviceList) :
    List.Sorted strLe (mainLoop st envs).state.deviceList := by
  induction envs generalizing st with
  | nil => exact hs
  | cons env rest ih =>
    unfold mainLoop
    simp only
    split
    · exact tick_sorted st env hs
    · exact ih _ (tick_sorted st env hs)

/-- The device-topic payload of an iteration is the JSON text of the list the
iteration leaves in `deviceList`. -/
theorem tick_device_payload (st : State) (env : TickEnv) (payload : String)
    (hpub : Event.mosquitto_publish DEVICE_TOPIC payload ∈ (tick st env).events) :
    payload = buildJson (get_ip_address env.hostname) (get_mac_address env.ifconfig)
      (tick st env).state.deviceList := by
  cases h : env.arp with
  | none =>
    rw [tick_arp_none st env h] at hpub
    simp at hpub
  | some out =>
    by_cases heq : sortDevices (buildDeviceList out) = st.deviceList
    · rw [tick_unchanged st env out h heq] at hpub
      simp at hpub
    · rw [tick_changed st env out h heq] at hpub ⊢
      by_cases hp : env.publishRet ≠ MOSQ_ERR_SUCCESS
      · simpa [hp] using hpub
      · simpa [hp] using hpub

/-- No iteration of the loop ever publishes on the alert topic: the two alert
branches of lines 217-224 compare `deviceList` with the vector it was just assigned. -/
theorem tick_no_alert (st : State) (env : TickEnv) (payload : String) :
    Event.mosquitto_publish ALERT_TOPIC payload ∉ (tick st env).events := by
  have htopic : ALERT_TOPIC ≠ DEVICE_TOPIC := by decide
  cases h : env.arp with
  | none => rw [tick_arp_none st env h]; simp
  | some out =>
    by_cases heq : sortDevices (buildDeviceList out) = st.deviceList
    · rw [tick_unchanged st env out h heq]; simp
    · rw [tick_changed st env out h heq]
      by_cases hp : env.publishRet ≠ MOSQ_ERR_SUCCESS
      · simp [hp, htopic]
      · simp [hp, htopic]

theorem tick_nodup (st : State) (env : TickEnv) (hs : st.deviceList.Nodup)
    (hnd : ∀ out, env.arp = some out → (buildDeviceList out).Nodup) :
    (tick st env).state.deviceList.Nodup := by
  cases h : env.arp with
  | none => rw [tick_arp_none st env h]; exact hs
  | some out =>
    rw [tick_state st env out h]
    exact (sortDevices_perm _).nodup_iff.mpr (hnd out h)

theorem mainLoop_nodup (st : State) (envs : List TickEnv) (hs : st.deviceList.Nodup)
    (hnd : ∀ env ∈ envs, ∀ out, env.arp = some out → (buildDeviceList out).Nodup) :
    (mainLoop st envs).state.deviceList.Nodup := by
  induction envs generalizing st with
  | nil => exact hs
  | cons env rest ih =>
    have hstep := tick_nodup st env hs (hnd env (List.mem_cons_self _ _))
    unfold mainLoop
    simp only
    split
    · exact hstep
    · exact ih _ hstep (fun e he => hnd e (List.mem_cons_of_mem _ he))

/-! ## The claims -/

/-- C5 (wire payload): for every local ip string, local mac string and tracked device
list that fits a `size_t`, the text built on a detected change is exactly
`{"ip_address":"<ip>","mac_address":"<mac>","devices":["d1",...,"dn"]}`: the entries
double-quoted, joined by single commas with none trailing, and `[]` for the empty list. -/
theorem buildJson_wire_payload (ip mac : String) (deviceList : List String)
    (hsize : deviceList.length < SIZE_MODULUS) :
    buildJson ip mac deviceList
        = "\x7b\"ip_address\":\"" ++ ip ++ "\",\"mac_address\":\"" ++ mac
            ++ "\",\"devices\":["
            ++ ",".intercalate (deviceList.map (fun d => "\"" ++ d ++ "\"")) ++ "]\x7d"
      ∧ buildJson ip mac []
        = "\x7b\"ip_address\":\"" ++ ip ++ "\",\"mac_address\":\"" ++ mac
            ++ "\",\"devices\":[]\x7d" := by
  constructor
  · unfold buildJson
    simp only
    rw [devicesLoop_eq deviceList hsize deviceList.length 0 _ (Nat.zero_le _) (by omega)]
    simp [String.append_assoc, quoted]
    rfl
  · simp [buildJson, devicesLoop, String.append_assoc]

/-- Witness for C5: the list holding `aa:bb:cc:dd:ee:ff` yields
`"devices":["aa:bb:cc:dd:ee:ff"]`. -/
theorem buildJson_wire_payload_witness :
    ["aa:bb:cc:dd:ee:ff"].length < SIZE_MODULUS
      ∧ buildJson "10.0.0.5" "00:11:22:33:44:55" ["aa:bb:cc:dd:ee:ff"]
        = "\x7b\"ip_address\":\"10.0.0.5\",\"mac_address\":\"00:11:22:33:44:55\","
            ++ "\"devices\":[\"aa:bb:cc:dd:ee:ff\"]\x7d" :=
  ⟨by decide,
    (buildJson_wire_payload "10.0.0.5" "00:11:22:33:44:55" ["aa:bb:cc:dd:ee:ff"]
      (by decide)).1.trans (by decide)⟩

/-- C8 (inbound new-device relay): the message handler makes exactly one publish, on the
alert topic with payload "New device connected to the network", when the topic of the
message is the new-device topic, makes no publish for any other topic, and in both
cases leaves the tracked device list as it was. -/
theorem on_message_relay (st : State) (msg : Message) :
    publishes (on_message st msg).2
        = (if msg.topic = NEW_DEVICE_TOPIC
            then [(ALERT_TOPIC, "New device connected to the network")] else [])
      ∧ (on_message st msg).1 = st := by
  unfold on_message
  by_cases h : msg.topic = NEW_DEVICE_TOPIC
  · simp [h, publishes]
  · simp [h, publishes]

/-- C1 (join detection), evaluated on the code: from the empty state a listing of
one identifier, and from `[A]` a listing of `A` and `B`, replace the tracked state and
make the device publish, which succeeds, and that is the whole trace: no
"New device connected to the network" alert follows, because line 190 has already
overwritten `deviceList` when lines 217 and 221 compare the two sizes. -/
theorem join_tick_trace :
    tick State.initial (sampleEnv "aa:bb:cc:dd:ee:ff\n" MOSQ_ERR_SUCCESS)
        = ⟨⟨["aa:bb:cc:dd:ee:ff"]⟩,
            [Event.mosquitto_publish "NETWORK/device"
              ("\x7b\"ip_address\":\"10.0.0.5\",\"mac_address\":\"00:11:22:33:44:55\","
                ++ "\"devices\":[\"aa:bb:cc:dd:ee:ff\"]\x7d")],
            false⟩
      ∧ tick ⟨["A"]⟩ (sampleEnv "A\nB\n" MOSQ_ERR_SUCCESS)
        = ⟨⟨["A", "B"]⟩,
            [Event.mosquitto_publish "NETWORK/device"
              ("\x7b\"ip_address\":\"10.0.0.5\",\"mac_address\":\"00:11:22:33:44:55\","
                ++ "\"devices\":[\"A\",\"B\"]\x7d")],
            false⟩ := by
  decide

/-- C2 (leave detection), evaluated on the code: from `[A, B]` a listing of `A` alone
replaces the tracked state and makes the device publish, which succeeds, and that is
the whole trace: no "Device disconnected from the network" alert follows. -/
theorem leave_tick_trace :
    tick ⟨["A", "B"]⟩ (sampleEnv "A\n" MOSQ_ERR_SUCCESS)
      = ⟨⟨["A"]⟩,
          [Event.mosquitto_publish "NETWORK/device"
            ("\x7b\"ip_address\":\"10.0.0.5\",\"mac_address\":\"00:11:22:33:44:55\","
              ++ "\"devices\":[\"A\"]\x7d")],
          false⟩ := by
  decide

/-- C3 (unchanged input is a no-op, whatever the input order): after an iteration that
captured a listing, an iteration whose captured entries are a rearrangement of those
(the same ones included) leaves the tracked device list exactly as it was, emits
nothing at all, and does not leave the loop. -/
theorem unchanged_tick_noop (st : State) (env env2 : TickEnv) (out out2 : List Char)
    (h : env.arp = some out) (h2 : env2.arp = some out2)
    (hperm : (buildDeviceList out2).Perm (buildDeviceList out)) :
    tick (tick st env).state env2 = ⟨(tick st env).state, [], false⟩ := by
  apply tick_unchanged _ env2 out2 h2
  rw [tick_state st env out h]
  exact sortDevices_congr _ _ hperm

/-- Witness for C3: the listing `B, A` followed by the listing `A, B`. -/
theorem unchanged_tick_noop_witness :
    (buildDeviceList "A\nB\n".data).Perm (buildDeviceList "B\nA\n".data)
      ∧ tick (tick State.initial (sampleEnv "B\nA\n" MOSQ_ERR_SUCCESS)).state
          (sampleEnv "A\nB\n" MOSQ_ERR_SUCCESS)
        = ⟨⟨["A", "B"]⟩, [], false⟩ :=
  ⟨by decide,
    (unchanged_tick_noop State.initial (sampleEnv "B\nA\n" MOSQ_ERR_SUCCESS)
      (sampleEnv "A\nB\n" MOSQ_ERR_SUCCESS) "B\nA\n".data "A\nB\n".data rfl rfl
      (by decide)).trans (by decide)⟩

/-- C4 (set reconstruction): start from the empty state, run any iterations, then one
more. The tracked list that iteration leaves is sorted ascending in the lexicographic
string order, and a payload it publishes on the device topic has as its `devices`
array exactly the entries of that tracked list, in that order (the tracked vector
fitting a `size_t`). -/
theorem set_reconstruction (envs : List TickEnv) (env : TickEnv)
    (hsize : (tick (mainLoop State.initial envs).state env).state.deviceList.length
      < SIZE_MODULUS) :
    List.Sorted strLe (tick (mainLoop State.initial envs).state env).state.deviceList
      ∧ ∀ payload : String,
          Event.mosquitto_publish DEVICE_TOPIC payload
              ∈ (tick (mainLoop State.initial envs).state env).events →
          payload
            = "\x7b\"ip_address\":\"" ++ get_ip_address env.hostname
                ++ "\",\"mac_address\":\"" ++ get_mac_address env.ifconfig
                ++ "\",\"devices\":["
                ++ ",".intercalate
                    ((tick (mainLoop State.initial envs).state env).state.deviceList.map
                      (fun d => "\"" ++ d ++ "\""))
                ++ "]\x7d" := by
  refine ⟨tick_sorted _ env (mainLoop_sorted _ envs ?_), ?_⟩
  · exact List.sorted_nil
  · intro payload hpub
    rw [tick_device_payload _ env payload hpub]
    unfold buildJson
    simp only
    rw [devicesLoop_eq _ hsize _ 0 _ (Nat.zero_le _) (by omega)]
    simp [String.append_assoc, quoted]
    rfl

/-- Witness for C4: after the listing `B, A`, the listing `C, A` is tracked and
published as `A, C`. -/
theorem set_reconstruction_witness :
    (tick (mainLoop State.initial [sampleEnv "B\nA\n" MOSQ_ERR_SUCCESS]).state
        (sampleEnv "C\nA\n" MOSQ_ERR_SUCCESS)).state.deviceList.length < SIZE_MODULUS
      ∧ List.Sorted strLe ["A", "C"]
      ∧ (tick (mainLoop State.initial [sampleEnv "B\nA\n" MOSQ_ERR_SUCCESS]).state
          (sampleEnv "C\nA\n" MOSQ_ERR_SUCCESS)).events
        = [Event.mosquitto_publish DEVICE_TOPIC
            ("\x7b\"ip_address\":\"10.0.0.5\",\"mac_address\":\"00:11:22:33:44:55\","
              ++ "\"devices\":[\"A\",\"C\"]\x7d")] :=
  ⟨by decide,
    (set_reconstruction [sampleEnv "B\nA\n" MOSQ_ERR_SUCCESS]
      (sampleEnv "C\nA\n" MOSQ_ERR_SUCCESS) (by decide)).1,
    by decide⟩

/-- C6 as stated fails: when the address-table command cannot be started in the first
iteration, the loop is left at once, so the listing the second iteration would have
captured is never tracked: the tracked list stays empty instead of becoming that
sorted listing. -/
theorem arp_failure_not_resumed :
    mainLoop State.initial [failedEnv, sampleEnv "aa:bb:cc:dd:ee:ff\n" MOSQ_ERR_SUCCESS]
        = ⟨⟨[]⟩, [Event.cerr "Error: Unable to execute ARP command"], true⟩
      ∧ sortDevices (buildDeviceList "aa:bb:cc:dd:ee:ff\n".data) = ["aa:bb:cc:dd:ee:ff"]
      ∧ (mainLoop State.initial
            [failedEnv, sampleEnv "aa:bb:cc:dd:ee:ff\n" MOSQ_ERR_SUCCESS]).state.deviceList
          ≠ sortDevices (buildDeviceList "aa:bb:cc:dd:ee:ff\n".data) := by
  decide

/-- C6 as amended (source failure stops the loop): for every tracked state, an iteration
in which the address-table command cannot be started publishes nothing and leaves
the tracked device list unchanged; the loop ends in that iteration, whatever the
later captures would have delivered, and the bus connection is then released
(disconnect, destroy, library clean-up) and the program has ended. -/
theorem arp_failure_stops_loop (st : State) (env : TickEnv) (rest : List TickEnv)
    (h : env.arp = none) :
    (tick st env).state = st
      ∧ publishes (tick st env).events = []
      ∧ mainLoop st (env :: rest)
          = ⟨st, [Event.cerr "Error: Unable to execute ARP command"], true⟩
      ∧ (loopAndCleanup st (env :: rest)).state = st
      ∧ (loopAndCleanup st (env :: rest)).events
          = [Event.cerr "Error: Unable to execute ARP command", Event.mosquitto_disconnect,
              Event.mosquitto_destroy, Event.mosquitto_lib_cleanup]
      ∧ (loopAndCleanup st (env :: rest)).exit ≠ none := by
  have hloop : mainLoop st (env :: rest)
      = ⟨st, [Event.cerr "Error: Unable to execute ARP command"], true⟩ := by
    simp [mainLoop, tick_arp_none st env h]
  refine ⟨?_, ?_, hloop, ?_, ?_, ?_⟩
  · rw [tick_arp_none st env h]
  · rw [tick_arp_none st env h]; rfl
  · simp [loopAndCleanup, hloop]
  · simp [loopAndCleanup, hloop]
  · simp [loopAndCleanup, hloop]

/-- Witness for C6 as amended: a failed capture while `[A]` is tracked, followed by an
iteration that would have captured `B`. -/
theorem arp_failure_stops_loop_witness :
    failedEnv.arp = none
      ∧ mainLoop ⟨["A"]⟩ [failedEnv, sampleEnv "B\n" MOSQ_ERR_SUCCESS]
        = ⟨⟨["A"]⟩, [Event.cerr "Error: Unable to execute ARP command"], true⟩ :=
  ⟨rfl,
    (arp_failure_stops_loop ⟨["A"]⟩ failedEnv [sampleEnv "B\n" MOSQ_ERR_SUCCESS] rfl).2.2.1⟩

/-- C7 (fail-stop on a failed device publish), evaluated on the code: with a working
start-up, a first iteration that detects a change and whose device publish returns
the error code 1 ends the loop without an alert and without a further iteration, and
the connection is released, but the exit status is 0, where the claim says non-zero;
a failed connect at start-up, in contrast, exits with status 1. -/
theorem publish_failure_exit_status :
    main ⟨true, MOSQ_ERR_SUCCESS, MOSQ_ERR_SUCCESS⟩
        [sampleEnv "aa:bb:cc:dd:ee:ff\n" 1, sampleEnv "A\n" MOSQ_ERR_SUCCESS]
        = ⟨⟨["aa:bb:cc:dd:ee:ff"]⟩,
            [Event.mosquitto_lib_init,
              Event.mosquitto_new "device_publisher",
              Event.mosquitto_connect "localhost" 1883 60,
              Event.mosquitto_message_callback_set,
              Event.mosquitto_subscribe "NETWORK/new_device",
              Event.mosquitto_publish "NETWORK/device"
                ("\x7b\"ip_address\":\"10.0.0.5\",\"mac_address\":\"00:11:22:33:44:55\","
                  ++ "\"devices\":[\"aa:bb:cc:dd:ee:ff\"]\x7d"),
              Event.cerr "Error: Unable to publish device details to topic NETWORK/device",
              Event.mosquitto_disconnect,
              Event.mosquitto_destroy,
              Event.mosquitto_lib_cleanup],
            some 0⟩
      ∧ (main ⟨true, 1, MOSQ_ERR_SUCCESS⟩ []).exit = some 1 := by
  decide

/-- C9 as stated fails: a listing that prints the same identifier on two lines is
tracked, and published, with the identifier twice. -/
theorem duplicate_lines_tracked_twice :
    tick State.initial (sampleEnv "aa:bb:cc:dd:ee:ff\naa:bb:cc:dd:ee:ff\n" MOSQ_ERR_SUCCESS)
        = ⟨⟨["aa:bb:cc:dd:ee:ff", "aa:bb:cc:dd:ee:ff"]⟩,
            [Event.mosquitto_publish "NETWORK/device"
              ("\x7b\"ip_address\":\"10.0.0.5\",\"mac_address\":\"00:11:22:33:44:55\","
                ++ "\"devices\":[\"aa:bb:cc:dd:ee:ff\",\"aa:bb:cc:dd:ee:ff\"]\x7d")],
            false⟩
      ∧ ¬ (tick State.initial
            (sampleEnv "aa:bb:cc:dd:ee:ff\naa:bb:cc:dd:ee:ff\n"
              MOSQ_ERR_SUCCESS)).state.deviceList.Nodup := by
  decide

/-- C9 as amended (no duplicates from duplicate-free listings): start from the empty
state, run any iterations, then one more. When no captured listing holds the same
entry twice, the tracked list that iteration leaves holds each identifier at most
once, and a payload it publishes on the device topic is the JSON text of that
tracked list. -/
theorem nodup_of_nodup_listings (envs : List TickEnv) (env : TickEnv)
    (hnd : ∀ e ∈ envs ++ [env], ∀ out, e.arp = some out → (buildDeviceList out).Nodup) :
    (tick (mainLoop State.initial envs).state env).state.deviceList.Nodup
      ∧ ∀ payload : String,
          Event.mosquitto_publish DEVICE_TOPIC payload
              ∈ (tick (mainLoop State.initial envs).state env).events →
          payload
            = buildJson (get_ip_address env.hostname) (get_mac_address env.ifconfig)
                (tick (mainLoop State.initial envs).state env).state.deviceList := by
  refine ⟨tick_nodup _ env (mainLoop_nodup _ envs List.nodup_nil ?_) ?_, ?_⟩
  · intro e he
    exact hnd e (List.mem_append_left _ he)
  · exact hnd env (by simp)
  · intro payload hpub
    exact tick_device_payload _ env payload hpub

/-- Witness for C9 as amended: the listing `B, A` followed by the listing `C, A`. -/
theorem nodup_of_nodup_listings_witness :
    (∀ e ∈ [sampleEnv "B\nA\n" MOSQ_ERR_SUCCESS] ++ [sampleEnv "C\nA\n" MOSQ_ERR_SUCCESS],
        ∀ out, e.arp = some out → (buildDeviceList out).Nodup)
      ∧ (["A", "C"] : List String).Nodup :=
  have hnd : ∀ e ∈ [sampleEnv "B\nA\n" MOSQ_ERR_SUCCESS]
      ++ [sampleEnv "C\nA\n" MOSQ_ERR_SUCCESS],
      ∀ out, e.arp = some out → (buildDeviceList out).Nodup := by
    intro e he out hout
    simp only [List.cons_append, List.nil_append, List.mem_cons, List.mem_singleton,
      List.not_mem_nil, or_false] at he
    rcases he with rfl | rfl
    · have : out = "B\nA\n".data := (Option.some.inj hout).symm
      subst this
      decide
    · have : out = "C\nA\n".data := (Option.some.inj hout).symm
      subst this
      decide
  ⟨hnd,
    (nodup_of_nodup_listings [sampleEnv "B\nA\n" MOSQ_ERR_SUCCESS]
      (sampleEnv "C\nA\n" MOSQ_ERR_SUCCESS) hnd).1⟩

/-- C10 as stated fails: with `[A]` tracked, a listing of `B` alone (same size, other
member) makes the device publish and nothing else: the join alert is not emitted. -/
theorem equal_size_change_no_join_alert :
    (buildDeviceList "B\n".data).length = (["A"] : List String).length
      ∧ sortDevices (buildDeviceList "B\n".data) ≠ ["A"]
      ∧ publishes (tick ⟨["A"]⟩ (sampleEnv "B\n" MOSQ_ERR_SUCCESS)).events
        = [("NETWORK/device",
            "\x7b\"ip_address\":\"10.0.0.5\",\"mac_address\":\"00:11:22:33:44:55\","
              ++ "\"devices\":[\"B\"]\x7d")]
      ∧ ("NETWORK/alert", "New device connected to the network")
          ∉ publishes (tick ⟨["A"]⟩ (sampleEnv "B\n" MOSQ_ERR_SUCCESS)).events := by
  decide

/-- C10 as amended (equal-size membership change raises no alert): for every tracked
state and every captured listing with as many entries as the tracked list but a
different sorted form, the iteration replaces the tracked state by the sorted
listing and makes exactly one publish, the one on the device topic: neither the
join alert nor the leave alert is emitted. -/
theorem equal_size_change_publishes_only (st : State) (env : TickEnv) (out : List Char)
    (h : env.arp = some out)
    (_hlen : (buildDeviceList out).length = st.deviceList.length)
    (hne : sortDevices (buildDeviceList out) ≠ st.deviceList) :
    (tick st env).state = ⟨sortDevices (buildDeviceList out)⟩
      ∧ publishes (tick st env).events
        = [(DEVICE_TOPIC,
            buildJson (get_ip_address env.hostname) (get_mac_address env.ifconfig)
              (sortDevices (buildDeviceList out)))] := by
  rw [tick_changed st env out h hne]
  by_cases hp : env.publishRet ≠ MOSQ_ERR_SUCCESS
  · simp [hp, publishes]
  · simp [hp, publishes]

/-- Witness for C10 as amended: `[A]` tracked, `B` captured. -/
theorem equal_size_change_publishes_only_witness :
    (buildDeviceList "B\n".data).length = (["A"] : List String).length
      ∧ sortDevices (buildDeviceList "B\n".data) ≠ ["A"]
      ∧ (tick ⟨["A"]⟩ (sampleEnv "B\n" MOSQ_ERR_SUCCESS)).state = ⟨["B"]⟩ :=
  ⟨by decide, by decide,
    (equal_size_change_publishes_only ⟨["A"]⟩ (sampleEnv "B\n" MOSQ_ERR_SUCCESS) "B\n".data
      rfl (by decide) (by decide)).1⟩

end NetMonitor
